import Mathlib

/-!
Shallow embedding of `src/RP2040_Volume.h`, the single-tone PWM volume driver
for the RP2040.

Modelling conventions:
* C machine integers become `Nat` with an explicit `% 2^w` wherever the C
  arithmetic is performed modulo the word size (`uint32_t` increment in the
  timer callback, the `uint32_t` multiplication `1000 * duration`, the
  `uint16_t` store of the resolved level).
* The `float`/`double` parameters `freq` and `volume` are embedded as `ℚ`,
  and C `round` (round-half-away-from-zero) as Mathlib's `round`
  (round-half-up); the two agree on the non-negative values produced here.
* C integer division faults on a zero divisor (undefined behavior), so the
  toggle-count computation of `tone` is fallible and returns an `Option`.
* Likewise, converting a floating-point value to `uint32_t` is defined in C
  only when the truncated value lies in [0, 2^32); the cast in `freq_to_us`
  is therefore fallible and returns `none` outside that range.
* `pwm_set_gpio_level` is modelled per lead: the code only ever writes the
  instance's own `pinPlus`/`pinMinus` pins, so the PWM output state is the
  pair of duty levels currently latched for the plus and minus leads.  The
  pin numbers and slice number themselves carry no information beyond which
  lead is addressed, so they are not repeated in the state.
* Heap and timer resources are tracked by ghost allocation counters:
  `dataAllocs` counts live `timer_data` heap blocks (incremented by
  `new timer_data()` at line 153, decremented by `delete` at lines 88, 150
  and 188; `delete` of a null pointer frees nothing), and `poolAllocs`
  counts live alarm pools (incremented by `alarm_pool_create` at line 170,
  decremented by `alarm_pool_destroy` at lines 89, 167 and 190).
-/

/-- Timebase selector for `tone` durations, `#define TIME_MS 0` (line 26). -/
def TIME_MS : Nat := 0

/-- Timebase selector for `tone` durations, `#define TIME_US 1` (line 27). -/
def TIME_US : Nat := 1

/-- PWM counter wrap value, `#define TOP 1000` (line 29). -/
def TOP : Nat := 1000

/-- Modulus of `uint32_t` arithmetic. -/
def UINT32_MOD : Nat := 4294967296

/-- Modulus of `uint16_t` arithmetic. -/
def UINT16_MOD : Nat := 65536

/-- The schedule snapshot handed to the timer callback, `struct timer_data`
(lines 37-47).  The pin and slice identifiers of the struct are represented
implicitly by the per-lead output model (see the header comment). -/
structure timer_data where
  numRepeats : Nat
  repeats : Nat
  high : Bool
  diff : Bool
  level : Nat
  deriving Repr, DecidableEq

/-- Duty levels currently latched on the two PWM leads; `pwm_set_gpio_level`
on `pinPlus` / `pinMinus` updates the respective field. -/
structure Outputs where
  plus : Nat
  minus : Nat
  deriving Repr, DecidableEq

/-- The repeating-timer callback `timer_cb` (lines 221-253): increment the
completed-toggle counter; once it reaches the target, zero the outputs and
return `false` (stop recurring); otherwise toggle the driven lead according
to the phase flag, invert the flag and return `true`. -/
def timer_cb (td : timer_data) (out : Outputs) : timer_data × Outputs × Bool :=
  let td1 : timer_data := { td with repeats := (td.repeats + 1) % UINT32_MOD }
  if td1.numRepeats ≤ td1.repeats then
    let out1 : Outputs := { out with plus := 0 }
    let out2 : Outputs := if td1.diff then { out1 with minus := 0 } else out1
    (td1, out2, false)
  else
    let out1 : Outputs :=
      if td1.diff then
        if td1.high then { out with plus := 0, minus := td1.level }
        else { out with plus := td1.level, minus := 0 }
      else
        if td1.high then { out with plus := 0 }
        else { out with plus := td1.level }
    ({ td1 with high := !td1.high }, out1, true)

/-- State reached after `n` invocations of `timer_cb`, threading the mutated
schedule and the latched output levels (the returned `Bool` of each call is
what the timer collaborator consumes and is not part of the state). -/
def runTimer : Nat → timer_data → Outputs → timer_data × Outputs
  | 0, td, out => (td, out)
  | n + 1, td, out =>
    let s := runTimer n td out
    let r := timer_cb s.1 s.2
    (r.1, r.2.1)

/-- Full result (state and returned continuation flag) of the `k`-th
invocation of `timer_cb`, counting from 1. -/
def nthCall (k : Nat) (td : timer_data) (out : Outputs) :
    timer_data × Outputs × Bool :=
  let s := runTimer (k - 1) td out
  timer_cb s.1 s.2

/-- Rounded half-period computed by `freq_to_us` before the integer cast
(line 218): `round((1.0/(2.0*freq)) * 1e6)` as an unbounded integer. -/
def freq_to_us_round (freq : ℚ) : ℤ :=
  round (1 / (2 * freq) * 1000000)

/-- Frequency-to-half-period conversion `freq_to_us` (lines 217-219):
`(uint32_t)round((1.0/(2.0*freq)) * 1e6)`.  Converting a floating-point
value to `uint32_t` is defined in C only when the truncated value lies in
[0, 2^32); outside that range the conversion is undefined behavior,
modelled as `none`. -/
def freq_to_us (freq : ℚ) : Option Nat :=
  if 0 ≤ freq_to_us_round freq ∧ freq_to_us_round freq < 4294967296 then
    some (freq_to_us_round freq).toNat
  else none

/-- Volume clamping of `tone` (lines 121-127): first cap at 100, then floor
at 0. -/
def clampedVolume (volume : ℚ) : ℚ :=
  let v1 := if volume > 100 then 100 else volume
  if v1 < 0 then 0 else v1

/-- Resolved internal level of `tone` (line 129):
`_level = (uint16_t)round(volume * 10.0f)` after clamping. -/
def resolvedLevel (volume : ℚ) : Nat :=
  (round (clampedVolume volume * 10)).toNat % UINT16_MOD

/-- Toggle-count computation of `tone` (the `switch` at lines 138-145) over
the previous value `old` of the field `_numRepeats`.  C division by zero is
undefined behavior, modelled as `none`; when `time` matches neither case the
switch leaves `_numRepeats` unchanged. -/
def computeNumRepeats (old duration time usPerWave : Nat) : Option Nat :=
  if time = TIME_US then
    if usPerWave = 0 then none else some (duration / usPerWave)
  else if time = TIME_MS then
    if usPerWave = 0 then none
    else some (1000 * duration % UINT32_MOD / usPerWave)
  else some old

/-- Instance state of `RP2040_Volume` (fields at lines 201-210) together
with the latched PWM output levels and the ghost allocation counters
described in the header comment.  `timerData = none` models the null
pointer, `alarmPool` models whether `_alarmPool` is non-null, and
`timerArmed` models whether a repeating timer is currently registered. -/
structure VolumeState where
  level : Nat
  diff : Bool
  timerData : Option timer_data
  numRepeats : Nat
  alarmPool : Bool
  timerArmed : Bool
  out : Outputs
  dataAllocs : Nat
  poolAllocs : Nat
  deriving Repr, DecidableEq

/-- Resource-accounting invariant of a quiescent instance: the ghost
counters agree with the handle fields (one live allocation exactly when the
corresponding handle is non-null). -/
def goodState (s : VolumeState) : Prop :=
  s.dataAllocs = (if s.timerData.isSome then 1 else 0) ∧
  s.poolAllocs = (if s.alarmPool then 1 else 0)

/-- The `tone` member function (lines 102-182): clamp and quantize the
volume, pre-set the leads (plus to 0, minus to the level in differential
mode, lines 131-135), compute the toggle target, tear down any prior
schedule (lines 148-151) and pool (lines 166-168), then allocate the new
schedule snapshot (lines 153-161), create a fresh pool and register the
repeating timer (lines 170-177).  Returns `none` when the half-period cast
at line 103/218 is out of range or the toggle-count division divides by
zero (both C undefined behavior).  The external PWM slice configuration
calls (lines 104-119, 179-181) have no footprint in this state. -/
def tone (s : VolumeState) (freq volume : ℚ) (duration time : Nat) :
    Option VolumeState :=
  (freq_to_us freq).bind fun usPerWave =>
  let level := resolvedLevel volume
  let out1 : Outputs :=
    { plus := 0, minus := if s.diff then level else s.out.minus }
  (computeNumRepeats s.numRepeats duration time usPerWave).map fun n =>
    let td : timer_data :=
      { numRepeats := n, repeats := 0, high := false,
        diff := s.diff, level := level }
    { s with
      level := level,
      numRepeats := n,
      timerData := some td,
      dataAllocs := (if s.timerData.isSome
        then s.dataAllocs - 1 else s.dataAllocs) + 1,
      alarmPool := true,
      poolAllocs := (if s.alarmPool
        then s.poolAllocs - 1 else s.poolAllocs) + 1,
      timerArmed := true,
      out := out1 }

/-- The `stop_tone` member function (lines 185-198): cancel the timer, free
the schedule and null the pointer, destroy the pool and null the handle,
then force the plus lead (and in differential mode the minus lead) to zero.
Modelled from the spec: `alarm_pool_destroy` and `delete` on a null handle
(timer collaborator / C++ runtime, not part of `src/`) safely release
nothing, per the specification's requirement that `stop` "safely release
any null resource handles". -/
def stop_tone (s : VolumeState) : VolumeState :=
  { s with
    timerArmed := false,
    dataAllocs := if s.timerData.isSome then s.dataAllocs - 1 else s.dataAllocs,
    timerData := none,
    poolAllocs := if s.alarmPool then s.poolAllocs - 1 else s.poolAllocs,
    alarmPool := false,
    out := { plus := 0, minus := if s.diff then 0 else s.out.minus } }

/-- The destructor `~RP2040_Volume` (lines 86-90): cancel the timer, free
the schedule, destroy the pool.  It performs no `pwm_set_gpio_level` call,
so the latched output levels are left untouched.  The freed handles are
shown as cleared since the object's storage is released. -/
def destruct (s : VolumeState) : VolumeState :=
  { s with
    timerArmed := false,
    dataAllocs := if s.timerData.isSome then s.dataAllocs - 1 else s.dataAllocs,
    timerData := none,
    poolAllocs := if s.alarmPool then s.poolAllocs - 1 else s.poolAllocs,
    alarmPool := false }

/-- Resource events issued by `tone`, in source order, for the moment-by-
moment accounting of live handles. -/
inductive REvent where
  | cancelTimer
  | deleteData
  | newData
  | destroyPool
  | createPool
  | addTimer
  deriving Repr, DecidableEq

/-- Effect of one resource event on the pair (live `timer_data` blocks,
live alarm pools). -/
def applyEv (c : Nat × Nat) (e : REvent) : Nat × Nat :=
  match e with
  | REvent.deleteData => (c.1 - 1, c.2)
  | REvent.newData => (c.1 + 1, c.2)
  | REvent.destroyPool => (c.1, c.2 - 1)
  | REvent.createPool => (c.1, c.2 + 1)
  | _ => c

/-- Check that, starting from counts `c`, every intermediate count along the
event list stays at most one of each resource. -/
def countsOk (c : Nat × Nat) : List REvent → Bool
  | [] => c.1 ≤ 1 && c.2 ≤ 1
  | e :: es => (c.1 ≤ 1 && c.2 ≤ 1) && countsOk (applyEv c e) es

/-- Resource events issued by one call to `tone`, in the order the source
performs them: conditional cancel + delete of the prior schedule (lines
148-151), allocation of the new one (line 153), conditional destroy of the
prior pool (lines 166-168), creation of the new pool (line 170) and timer
registration (line 176). -/
def toneEvents (s : VolumeState) : List REvent :=
  (if s.timerData.isSome then [REvent.cancelTimer, REvent.deleteData] else [])
    ++ [REvent.newData]
    ++ (if s.alarmPool then [REvent.destroyPool] else [])
    ++ [REvent.createPool, REvent.addTimer]

/-! Helper lemmas about the timer callback. -/

/-- Fields of the schedule other than the phase flag after one callback:
the counter is incremented modulo `2^32` and the immutable snapshot fields
are preserved by both branches. -/
theorem timer_cb_fields (td : timer_data) (out : Outputs) :
    (timer_cb td out).1.numRepeats = td.numRepeats ∧
    (timer_cb td out).1.diff = td.diff ∧
    (timer_cb td out).1.level = td.level ∧
    (timer_cb td out).1.repeats = (td.repeats + 1) % UINT32_MOD := by
  simp only [timer_cb]
  split <;> simp

/-- Exact result of a final callback invocation (the incremented counter has
reached the target): both leads zeroed in differential mode, the plus lead
zeroed in single-ended mode, and `false` returned. -/
theorem timer_cb_final (td : timer_data) (out : Outputs)
    (h1 : td.numRepeats ≤ td.repeats + 1) (h2 : td.repeats + 1 < UINT32_MOD) :
    timer_cb td out =
      ({ td with repeats := td.repeats + 1 },
       { plus := 0, minus := if td.diff then 0 else out.minus },
       false) := by
  have hm : (td.repeats + 1) % UINT32_MOD = td.repeats + 1 := Nat.mod_eq_of_lt h2
  simp only [timer_cb, hm]
  rw [if_pos h1]
  cases hd : td.diff <;> simp [hd]

/-- Exact result of a non-final callback invocation (the incremented counter
is still below the target): the driven lead is selected by the phase flag,
the flag is inverted, and `true` is returned. -/
theorem timer_cb_nonfinal (td : timer_data) (out : Outputs)
    (h1 : td.repeats + 1 < td.numRepeats) (h2 : td.numRepeats ≤ UINT32_MOD) :
    timer_cb td out =
      ({ td with repeats := td.repeats + 1, high := !td.high },
       (if td.diff then
          if td.high then { out with plus := 0, minus := td.level }
          else { out with plus := td.level, minus := 0 }
        else
          if td.high then { out with plus := 0 }
          else { out with plus := td.level }),
       true) := by
  have hm : (td.repeats + 1) % UINT32_MOD = td.repeats + 1 :=
    Nat.mod_eq_of_lt (lt_of_lt_of_le h1 h2)
  simp only [timer_cb, hm]
  rw [if_neg (by omega)]

/-- Snapshot fields and counter after `n` callback invocations that stay
within the toggle target. -/
theorem runTimer_fields (n : Nat) (td : timer_data) (out : Outputs)
    (h : td.repeats + n ≤ td.numRepeats) (hmod : td.numRepeats < UINT32_MOD) :
    (runTimer n td out).1.repeats = td.repeats + n ∧
    (runTimer n td out).1.numRepeats = td.numRepeats ∧
    (runTimer n td out).1.diff = td.diff ∧
    (runTimer n td out).1.level = td.level := by
  induction n with
  | zero => simp [runTimer]
  | succ n ih =>
    have hn : td.repeats + n ≤ td.numRepeats := by omega
    obtain ⟨hr, hN, hd, hl⟩ := ih hn
    obtain ⟨s1, s2, s3, s4⟩ :=
      timer_cb_fields (runTimer n td out).1 (runTimer n td out).2
    simp only [runTimer]
    refine ⟨?_, by simpa [hN] using s1, by simpa [hd] using s2,
      by simpa [hl] using s3⟩
    rw [s4, hr, Nat.mod_eq_of_lt (by omega)]
    omega

/-- C1 (amended): for a freshly started schedule (completed counter at zero,
any phase flag) whose toggle target `N` is at least 1, every callback
invocation before the `N`-th returns `true`, and the `N`-th invocation
drives the plus lead (and, in differential mode, the minus lead) to zero
duty level and returns `false`; when `N = 0`, completion instead takes one
invocation: the very first callback zeroes the outputs and returns `false`,
so the schedule finishes after `max N 1` invocations, not `N`. -/
theorem c1_toggle_count_invariant (td : timer_data) (out : Outputs)
    (h0 : td.repeats = 0) (hmod : td.numRepeats < UINT32_MOD) :
    (1 ≤ td.numRepeats →
      (∀ k, 1 ≤ k → k < td.numRepeats → (nthCall k td out).2.2 = true) ∧
      (nthCall td.numRepeats td out).2.2 = false ∧
      (runTimer td.numRepeats td out).2.plus = 0 ∧
      (td.diff = true → (runTimer td.numRepeats td out).2.minus = 0)) ∧
    (td.numRepeats = 0 →
      (nthCall 1 td out).2.2 = false ∧
      (runTimer 1 td out).2.plus = 0 ∧
      (td.diff = true → (runTimer 1 td out).2.minus = 0)) := by
  have hM : UINT32_MOD = 4294967296 := rfl
  constructor
  · intro hN
    obtain ⟨m, hm2⟩ : ∃ m, td.numRepeats = m + 1 := ⟨td.numRepeats - 1, by omega⟩
    obtain ⟨hr, hN2, hd, hl⟩ := runTimer_fields m td out (by omega) hmod
    have hfin := timer_cb_final (runTimer m td out).1 (runTimer m td out).2
      (by omega) (by omega)
    refine ⟨?_, ?_, ?_, ?_⟩
    · intro k hk1 hk2
      obtain ⟨kr, kN, kd, kl⟩ := runTimer_fields (k - 1) td out (by omega) hmod
      show (timer_cb (runTimer (k - 1) td out).1
        (runTimer (k - 1) td out).2).2.2 = true
      rw [timer_cb_nonfinal _ _ (by omega) (by omega)]
    · show (timer_cb (runTimer (td.numRepeats - 1) td out).1
        (runTimer (td.numRepeats - 1) td out).2).2.2 = false
      have hmm : td.numRepeats - 1 = m := by omega
      rw [hmm, hfin]
    · rw [hm2]
      simp only [runTimer]
      rw [hfin]
    · intro hdt
      rw [hm2]
      simp only [runTimer]
      rw [hfin]
      simp [hd, hdt]
  · intro hz
    have hfin := timer_cb_final td out (by omega) (by omega)
    refine ⟨?_, ?_, ?_⟩
    · show (timer_cb (runTimer 0 td out).1 (runTimer 0 td out).2).2.2 = false
      simp only [runTimer]
      rw [hfin]
    · simp only [runTimer]
      rw [hfin]
    · intro hdt
      simp only [runTimer]
      rw [hfin]
      simp [hdt]

/-- C1 counterexample: a differential schedule with toggle target `N = 0`
and level 500, in the output state `tone` establishes before the first tick
(plus at 0, minus at the configured level).  After exactly `N = 0` callback
invocations the outputs are not both at zero duty level (the minus lead
still reads 500), and the callback is nevertheless invoked once more,
returning `false` only on that first invocation — so completion does not
happen after exactly `N` invocations when `N = 0`. -/
theorem c1_counterexample :
    (runTimer 0 ⟨0, 0, false, true, 500⟩ ⟨0, 500⟩).2.minus = 500 ∧
    (500 ≠ 0) ∧
    (nthCall 1 ⟨0, 0, false, true, 500⟩ ⟨0, 500⟩).2.2 = false := by
  decide

/-- Witness for C1 (amended) at the concrete differential schedule with
target 3 and level 700: the first invocation returns `true`, the third
returns `false`, and after three invocations both leads read zero. -/
theorem c1_witness :
    (nthCall 1 ⟨3, 0, false, true, 700⟩ ⟨0, 0⟩).2.2 = true ∧
    (nthCall 3 ⟨3, 0, false, true, 700⟩ ⟨0, 0⟩).2.2 = false ∧
    (runTimer 3 ⟨3, 0, false, true, 700⟩ ⟨0, 0⟩).2.plus = 0 ∧
    (runTimer 3 ⟨3, 0, false, true, 700⟩ ⟨0, 0⟩).2.minus = 0 := by
  have h := c1_toggle_count_invariant ⟨3, 0, false, true, 700⟩ ⟨0, 0⟩
    rfl (by decide)
  have h1 := h.1 (by decide)
  exact ⟨h1.1 1 (by decide) (by decide), h1.2.1, h1.2.2.1, h1.2.2.2 rfl⟩

/-- Characterization of a successful `tone` call: the toggle-count division
succeeded with some target `n`, and the resulting instance state carries the
freshly allocated schedule snapshot (counter 0, phase flag low, clamped and
quantized level), the new pool and armed timer, exactly one live allocation
of each resource, and the pre-tick output levels of lines 131-135. -/
theorem tone_some_iff (s s1 : VolumeState) (freq volume : ℚ)
    (duration time : Nat) :
    tone s freq volume duration time = some s1 ↔
      ∃ u n, freq_to_us freq = some u ∧
        computeNumRepeats s.numRepeats duration time u = some n ∧
        s1 = { s with
          level := resolvedLevel volume,
          numRepeats := n,
          timerData := some ⟨n, 0, false, s.diff, resolvedLevel volume⟩,
          dataAllocs := (if s.timerData.isSome
            then s.dataAllocs - 1 else s.dataAllocs) + 1,
          alarmPool := true,
          poolAllocs := (if s.alarmPool
            then s.poolAllocs - 1 else s.poolAllocs) + 1,
          timerArmed := true,
          out := ⟨0, if s.diff then resolvedLevel volume else s.out.minus⟩ } := by
  simp only [tone]
  cases hu : freq_to_us freq with
  | none => simp
  | some u =>
    cases h : computeNumRepeats s.numRepeats duration time u with
    | none => simp [h]
    | some n =>
      simp only [Option.some_bind, h, Option.map_some', Option.some.injEq]
      constructor
      · intro h2
        exact ⟨u, n, rfl, h, h2.symm⟩
      · rintro ⟨u1, n1, hu1, hn1, rfl⟩
        obtain rfl : u = u1 := by simpa using hu1
        obtain rfl : n = n1 := by simpa [h] using hn1
        rfl

/-- C2: on every non-final callback invocation (incremented counter still
below the target) the action is chosen by the phase flag — flag high: plus
lead to zero and, in differential mode, minus lead to the configured level;
flag low: plus lead to the configured level and, in differential mode,
minus lead to zero; in single-ended mode the minus lead is never driven —
the flag is then inverted and `true` is returned; and since `tone`
initializes the flag low, the very first callback of a fresh schedule
asserts the configured level on the plus lead. -/
theorem c2_nonfinal_phase (td : timer_data) (out : Outputs)
    (h1 : td.repeats + 1 < td.numRepeats) (h2 : td.numRepeats ≤ UINT32_MOD)
    (s s1 : VolumeState) (freq volume : ℚ) (duration time : Nat)
    (hs : tone s freq volume duration time = some s1) :
    (timer_cb td out).2.2 = true ∧
    (timer_cb td out).1.high = !td.high ∧
    (td.high = true → (timer_cb td out).2.1.plus = 0 ∧
      (td.diff = true → (timer_cb td out).2.1.minus = td.level)) ∧
    (td.high = false → (timer_cb td out).2.1.plus = td.level ∧
      (td.diff = true → (timer_cb td out).2.1.minus = 0)) ∧
    (td.diff = false → (timer_cb td out).2.1.minus = out.minus) ∧
    (∃ td1, s1.timerData = some td1 ∧ td1.high = false ∧
      (1 < td1.numRepeats → td1.numRepeats ≤ UINT32_MOD →
        (timer_cb td1 s1.out).2.1.plus = td1.level)) := by
  have hnf := timer_cb_nonfinal td out h1 h2
  refine ⟨by rw [hnf], by rw [hnf], ?_, ?_, ?_, ?_⟩
  · intro hh
    rw [hnf]
    cases hd : td.diff <;> simp [hh]
  · intro hh
    rw [hnf]
    cases hd : td.diff <;> simp [hh]
  · intro hd
    rw [hnf]
    cases hh : td.high <;> simp [hd, hh]
  · rcases (tone_some_iff s s1 freq volume duration time).1 hs with
      ⟨u, n, hu, hn, rfl⟩
    refine ⟨⟨n, 0, false, s.diff, resolvedLevel volume⟩, by simp, rfl, ?_⟩
    intro hn1 hn2
    rw [timer_cb_nonfinal _ _ (by exact hn1) (by exact hn2)]
    cases hd : s.diff <;> simp

/-! Concrete evaluations of the rational-arithmetic embeddings, used by the
witnesses below. -/

/-- Evaluation of the resolved level at volume 0. -/
theorem resolvedLevel_zero : resolvedLevel 0 = 0 := by
  norm_num [resolvedLevel, clampedVolume, round_eq]

/-- Evaluation of the resolved level at volume 50. -/
theorem resolvedLevel_fifty : resolvedLevel 50 = 500 := by
  norm_num [resolvedLevel, clampedVolume, round_eq]
  rfl

/-- Evaluation of the resolved level at volume 100. -/
theorem resolvedLevel_hundred : resolvedLevel 100 = 1000 := by
  norm_num [resolvedLevel, clampedVolume, round_eq]
  rfl

/-- Evaluation of the rounded half-period at 440 Hz. -/
theorem freq_to_us_round_at_440 : freq_to_us_round 440 = 1136 := by
  norm_num [freq_to_us_round, round_eq]

/-- Evaluation of the half-period converter at 440 Hz: in range, so the
`uint32_t` cast is defined. -/
theorem freq_to_us_at_440 : freq_to_us 440 = some 1136 := by
  simp [freq_to_us, freq_to_us_round_at_440]

/-- Evaluation of the rounded half-period at 1000 Hz. -/
theorem freq_to_us_round_at_1000 : freq_to_us_round 1000 = 500 := by
  norm_num [freq_to_us_round, round_eq]

/-- Evaluation of the half-period converter at 1000 Hz. -/
theorem freq_to_us_at_1000 : freq_to_us 1000 = some 500 := by
  simp [freq_to_us, freq_to_us_round_at_1000]

/-- Evaluation of the rounded half-period at 2 MHz: zero microseconds. -/
theorem freq_to_us_round_at_2000000 : freq_to_us_round 2000000 = 0 := by
  norm_num [freq_to_us_round, round_eq]

/-- Evaluation of the half-period converter at 2 MHz: the rounded
half-period is zero microseconds (in range, so the cast is defined). -/
theorem freq_to_us_at_2000000 : freq_to_us 2000000 = some 0 := by
  simp [freq_to_us, freq_to_us_round_at_2000000]

/-- C3 (amended): for every positive frequency `f` whose rounded
half-period `round(1e6 / (2 f))` fits in `uint32_t` (is below `2^32`), the
converter returns exactly that value, the half-period in whole microseconds
rounded to the nearest integer; in particular 1136 at 440 Hz and 500 at
1000 Hz.  For smaller positive frequencies the double-to-`uint32_t` cast of
the rounded value is out of range, undefined behavior in C, so the
converter returns no defined value there. -/
theorem c3_half_period (f : ℚ) (hf : 0 < f)
    (hrange : round (1000000 / (2 * f)) < 4294967296) :
    (freq_to_us f).isSome = true ∧
    (∀ u, freq_to_us f = some u → (u : ℤ) = round (1000000 / (2 * f))) ∧
    freq_to_us 440 = some 1136 ∧ freq_to_us 1000 = some 500 := by
  have hx : freq_to_us_round f = round (1000000 / (2 * f)) := by
    unfold freq_to_us_round
    congr 1
    field_simp
  have h0 : 0 ≤ freq_to_us_round f := by
    rw [hx, round_eq]
    refine Int.le_floor.2 ?_
    have hpos : (0 : ℚ) < 1000000 / (2 * f) := by positivity
    push_cast
    linarith
  have hcond : 0 ≤ freq_to_us_round f ∧ freq_to_us_round f < 4294967296 :=
    ⟨h0, by rw [hx]; exact hrange⟩
  refine ⟨?_, ?_, freq_to_us_at_440, freq_to_us_at_1000⟩
  · simp only [freq_to_us, if_pos hcond]
    rfl
  · intro u hu
    simp only [freq_to_us, if_pos hcond] at hu
    obtain rfl : (freq_to_us_round f).toNat = u := Option.some.inj hu
    rw [Int.toNat_of_nonneg h0, hx]

/-- C3 counterexample: at the positive frequency `f = 1/10000` Hz the
rounded half-period is 5·10^9, which does not fit in `uint32_t`, so the
cast at line 218 is out-of-range undefined behavior and the converter
returns no value at all — the claim's universal "for every frequency
f > 0" fails there. -/
theorem c3_counterexample :
    ((0 : ℚ) < 1 / 10000) ∧
    freq_to_us_round (1 / 10000) = 5000000000 ∧
    ¬((5000000000 : ℤ) < 4294967296) ∧
    freq_to_us (1 / 10000) = none := by
  have h : freq_to_us_round (1 / 10000 : ℚ) = 5000000000 := by
    norm_num [freq_to_us_round, round_eq]
  refine ⟨by norm_num, h, by norm_num, ?_⟩
  simp only [freq_to_us, h]
  norm_num

/-- Witness for C3 (amended) at `f = 440`. -/
theorem c3_witness :
    ((0 : ℚ) < 440) ∧
    (round (1000000 / (2 * (440 : ℚ))) < 4294967296) ∧
    (freq_to_us 440).isSome = true ∧
    freq_to_us 440 = some 1136 ∧ freq_to_us 1000 = some 500 ∧
    ((1136 : ℤ) = round (1000000 / (2 * (440 : ℚ)))) := by
  have hr : round (1000000 / (2 * (440 : ℚ))) = 1136 := by
    norm_num [round_eq]
  have h := c3_half_period 440 (by norm_num) (by rw [hr]; norm_num)
  refine ⟨by norm_num, by rw [hr]; norm_num, h.1, h.2.2.1, h.2.2.2, ?_⟩
  exact_mod_cast h.2.1 1136 h.2.2.1

/-- C4: for a positive half-period `h` and a `uint16_t` duration `d`, the
toggle count is the truncating integer division `1000 * d / h` in
millisecond mode and `d / h` in microsecond mode, and a duration shorter
than one half-period yields exactly zero toggles. -/
theorem c4_toggle_count (old d h : Nat) (hh : 0 < h) (hd : d < UINT16_MOD) :
    computeNumRepeats old d TIME_MS h = some (1000 * d / h) ∧
    computeNumRepeats old d TIME_US h = some (d / h) ∧
    (d < h → computeNumRepeats old d TIME_US h = some 0) ∧
    (1000 * d < h → computeNumRepeats old d TIME_MS h = some 0) := by
  have h16 : UINT16_MOD = 65536 := rfl
  have h32 : UINT32_MOD = 4294967296 := rfl
  have hne : h ≠ 0 := by omega
  have hM : 1000 * d % UINT32_MOD = 1000 * d := Nat.mod_eq_of_lt (by omega)
  refine ⟨?_, ?_, ?_, ?_⟩
  · simp [computeNumRepeats, TIME_MS, TIME_US, hne, hM]
  · simp [computeNumRepeats, TIME_MS, TIME_US, hne]
  · intro hdh
    simp [computeNumRepeats, TIME_MS, TIME_US, hne, Nat.div_eq_of_lt hdh]
  · intro hdh
    simp [computeNumRepeats, TIME_MS, TIME_US, hne, hM, Nat.div_eq_of_lt hdh]

/-- Witness for C4 at the spec scenario: duration 1000 ms with half-period
1136 µs gives 880 toggles, and 1000 µs with the same half-period gives 0. -/
theorem c4_witness :
    (0 < 1136) ∧ (1000 < UINT16_MOD) ∧
    computeNumRepeats 0 1000 TIME_MS 1136 = some 880 ∧
    computeNumRepeats 0 1000 TIME_US 1136 = some 0 := by
  have h := c4_toggle_count 0 1000 1136 (by decide) (by decide)
  refine ⟨by decide, by decide, ?_, h.2.2.1 (by decide)⟩
  simpa using h.1

/-- The two-step clamp of `tone` equals the closed-form clamp to [0, 100]. -/
theorem clampedVolume_eq (x : ℚ) : clampedVolume x = max 0 (min x 100) := by
  simp only [clampedVolume]
  split_ifs with h1 h2 h3
  · norm_num at h2
  · rw [min_eq_right (by linarith), max_eq_right (by norm_num)]
  · rw [min_eq_left (by linarith), max_eq_left (by linarith)]
  · rw [min_eq_left (by linarith), max_eq_right (by linarith)]

/-- The clamped volume lies in [0, 100]. -/
theorem clampedVolume_bounds (x : ℚ) :
    0 ≤ clampedVolume x ∧ clampedVolume x ≤ 100 := by
  rw [clampedVolume_eq]
  constructor
  · exact le_max_left 0 _
  · exact max_le (by norm_num) (min_le_right x 100)

/-- The clamp is monotone. -/
theorem clampedVolume_mono {x y : ℚ} (hxy : x ≤ y) :
    clampedVolume x ≤ clampedVolume y := by
  rw [clampedVolume_eq, clampedVolume_eq]
  exact max_le_max le_rfl (min_le_min hxy le_rfl)

/-- The rounded scaled level, as an integer, lies in [0, 1000]. -/
theorem round_level_bounds (x : ℚ) :
    0 ≤ round (clampedVolume x * 10) ∧ round (clampedVolume x * 10) ≤ 1000 := by
  obtain ⟨hl, hu⟩ := clampedVolume_bounds x
  constructor
  · rw [round_eq]
    refine Int.le_floor.2 ?_
    push_cast
    linarith
  · rw [round_eq]
    have h1 : (⌊(clampedVolume x * 10 + 1 / 2 : ℚ)⌋ : ℤ)
        ≤ ⌊(1000 + 1 / 2 : ℚ)⌋ :=
      Int.floor_le_floor (by linarith)
    have h2 : (⌊(1000 + 1 / 2 : ℚ)⌋ : ℤ) = 1000 := by
      rw [Int.floor_eq_iff]
      norm_num
    omega

/-- C5: for every volume `v`, the resolved level equals
`round(clamp(v, 0, 100) * 10)`, lies in [0, 1000] (the lower bound being
type-level), is monotone non-decreasing, and equals 500 at `v = 50`. -/
theorem c5_resolved_level (v w : ℚ) (hvw : v ≤ w) :
    (resolvedLevel v : ℤ) = round (max 0 (min v 100) * 10) ∧
    resolvedLevel v ≤ 1000 ∧
    resolvedLevel v ≤ resolvedLevel w ∧
    resolvedLevel 50 = 500 := by
  have h16 : UINT16_MOD = 65536 := rfl
  have key : ∀ x : ℚ, resolvedLevel x = (round (clampedVolume x * 10)).toNat := by
    intro x
    obtain ⟨h0, h1⟩ := round_level_bounds x
    have ht : (round (clampedVolume x * 10)).toNat ≤ 1000 :=
      Int.toNat_le.2 (by exact_mod_cast h1)
    rw [resolvedLevel, Nat.mod_eq_of_lt (by omega)]
  obtain ⟨h0v, h1v⟩ := round_level_bounds v
  refine ⟨?_, ?_, ?_, resolvedLevel_fifty⟩
  · rw [key v, Int.toNat_of_nonneg h0v, clampedVolume_eq]
  · rw [key v]
    exact Int.toNat_le.2 (by exact_mod_cast h1v)
  · rw [key v, key w]
    refine Int.toNat_le_toNat ?_
    rw [round_eq, round_eq]
    exact Int.floor_le_floor (by nlinarith [clampedVolume_mono hvw])

/-- Witness for C5 at `v = 0 ≤ w = 50`. -/
theorem c5_witness :
    ((0 : ℚ) ≤ 50) ∧
    (resolvedLevel 0 : ℤ) = round (max 0 (min (0 : ℚ) 100) * 10) ∧
    resolvedLevel 0 ≤ 1000 ∧
    resolvedLevel 0 ≤ resolvedLevel 50 ∧
    resolvedLevel 50 = 500 := by
  have h := c5_resolved_level 0 50 (by norm_num)
  exact ⟨by norm_num, h.1, h.2.1, h.2.2.1, h.2.2.2⟩

/-- Witness for C2: a differential schedule mid-tone (counter 4 of 9, flag
high, level 300): the callback zeroes the plus lead, drives the minus lead
to 300, inverts the flag and returns `true`. -/
theorem c2_witness :
    (timer_cb ⟨9, 4, true, true, 300⟩ ⟨300, 0⟩).2.2 = true ∧
    (timer_cb ⟨9, 4, true, true, 300⟩ ⟨300, 0⟩).1.high = false ∧
    (timer_cb ⟨9, 4, true, true, 300⟩ ⟨300, 0⟩).2.1.plus = 0 ∧
    (timer_cb ⟨9, 4, true, true, 300⟩ ⟨300, 0⟩).2.1.minus = 300 := by
  have h := c2_nonfinal_phase ⟨9, 4, true, true, 300⟩ ⟨300, 0⟩
    (by decide) (by decide)
    ⟨0, false, none, 5, false, false, ⟨0, 0⟩, 0, 0⟩
    ⟨0, false, some ⟨5, 0, false, false, 0⟩, 5, true, true, ⟨0, 0⟩, 1, 1⟩
    1000 0 7 2
    (by simp [tone, computeNumRepeats, TIME_US, TIME_MS, resolvedLevel_zero,
      freq_to_us_at_1000])
  refine ⟨h.1, ?_, (h.2.2.1 rfl).1, (h.2.2.1 rfl).2 rfl⟩
  rw [h.2.1]
  rfl

/-- C6: from any state satisfying the resource-accounting invariant, a
successful `tone` call leaves exactly one active schedule (the new one),
exactly one live schedule allocation and one live alarm pool, an armed
timer, and the invariant restored; moreover along the sequence of resource
events `tone` performs, the number of live schedule allocations and live
pools never exceeds one at any moment. -/
theorem c6_single_owner (s : VolumeState) (hgood : goodState s)
    (freq volume : ℚ) (duration time : Nat) (s1 : VolumeState)
    (hs : tone s freq volume duration time = some s1) :
    s1.timerData.isSome = true ∧ s1.dataAllocs = 1 ∧ s1.poolAllocs = 1 ∧
    s1.alarmPool = true ∧ s1.timerArmed = true ∧ goodState s1 ∧
    countsOk (s.dataAllocs, s.poolAllocs) (toneEvents s) = true := by
  rcases (tone_some_iff s s1 freq volume duration time).1 hs with
    ⟨u, n, hu, hn, rfl⟩
  obtain ⟨hg1, hg2⟩ := hgood
  cases hts : s.timerData.isSome <;> cases hap : s.alarmPool <;>
    simp_all [goodState, toneEvents, countsOk, applyEv]

/-- Witness for C6 at the spec's differential scenario: a running instance
superseded by `tone(1000 Hz, volume 100, 1 ms)` ends with one live schedule
(target 2 toggles), one pool, and within-bound intermediate counts. -/
theorem c6_witness :
    (⟨1000, true, some ⟨2, 0, false, true, 1000⟩, 2, true, true,
      ⟨0, 1000⟩, 1, 1⟩ : VolumeState).timerData.isSome = true ∧
    (⟨1000, true, some ⟨2, 0, false, true, 1000⟩, 2, true, true,
      ⟨0, 1000⟩, 1, 1⟩ : VolumeState).dataAllocs = 1 ∧
    (⟨1000, true, some ⟨2, 0, false, true, 1000⟩, 2, true, true,
      ⟨0, 1000⟩, 1, 1⟩ : VolumeState).poolAllocs = 1 ∧
    countsOk (1, 1) (toneEvents ⟨0, true, some ⟨9, 4, true, true, 300⟩, 9,
      true, true, ⟨0, 300⟩, 1, 1⟩) = true := by
  have h := c6_single_owner
    ⟨0, true, some ⟨9, 4, true, true, 300⟩, 9, true, true, ⟨0, 300⟩, 1, 1⟩
    ⟨rfl, rfl⟩ 1000 100 1 0
    ⟨1000, true, some ⟨2, 0, false, true, 1000⟩, 2, true, true, ⟨0, 1000⟩, 1, 1⟩
    (by simp [tone, computeNumRepeats, TIME_US, TIME_MS,
      resolvedLevel_hundred, freq_to_us_at_1000, UINT32_MOD])
  exact ⟨h.1, h.2.1, h.2.2.1, h.2.2.2.2.2.2⟩

/-- C7: `stop_tone` is idempotent — a second call in a row changes nothing —
and after one call the plus lead (and in differential mode the minus lead)
reads zero, no schedule, pool or armed timer remains, under the accounting
invariant no live allocation remains, and calling it with null handles
(never-started instance) releases nothing and is harmless. -/
theorem c7_stop_idempotent (s : VolumeState) (hgood : goodState s) :
    stop_tone (stop_tone s) = stop_tone s ∧
    (stop_tone s).out.plus = 0 ∧
    (s.diff = true → (stop_tone s).out.minus = 0) ∧
    (stop_tone s).timerData = none ∧
    (stop_tone s).alarmPool = false ∧
    (stop_tone s).timerArmed = false ∧
    (stop_tone s).dataAllocs = 0 ∧
    (stop_tone s).poolAllocs = 0 ∧
    (s.timerData = none → s.alarmPool = false →
      (stop_tone s).dataAllocs = s.dataAllocs ∧
      (stop_tone s).poolAllocs = s.poolAllocs) := by
  obtain ⟨hg1, hg2⟩ := hgood
  refine ⟨?_, rfl, ?_, rfl, rfl, rfl, ?_, ?_, ?_⟩
  · cases hd : s.diff <;> simp [stop_tone, hd]
  · intro hd
    simp [stop_tone, hd]
  · cases hts : s.timerData.isSome <;> simp_all [stop_tone]
  · cases hap : s.alarmPool <;> simp_all [stop_tone]
  · intro h1 h2
    simp [stop_tone, h1, h2]

/-- Witness for C7 at a running differential instance with one live
schedule and pool. -/
theorem c7_witness :
    stop_tone (stop_tone ⟨1000, true, some ⟨2, 0, false, true, 1000⟩, 2,
        true, true, ⟨0, 1000⟩, 1, 1⟩)
      = stop_tone ⟨1000, true, some ⟨2, 0, false, true, 1000⟩, 2,
        true, true, ⟨0, 1000⟩, 1, 1⟩ ∧
    (stop_tone ⟨1000, true, some ⟨2, 0, false, true, 1000⟩, 2,
        true, true, ⟨0, 1000⟩, 1, 1⟩).out.plus = 0 ∧
    (stop_tone ⟨1000, true, some ⟨2, 0, false, true, 1000⟩, 2,
        true, true, ⟨0, 1000⟩, 1, 1⟩).out.minus = 0 ∧
    (stop_tone ⟨1000, true, some ⟨2, 0, false, true, 1000⟩, 2,
        true, true, ⟨0, 1000⟩, 1, 1⟩).dataAllocs = 0 := by
  have h := c7_stop_idempotent
    ⟨1000, true, some ⟨2, 0, false, true, 1000⟩, 2, true, true,
      ⟨0, 1000⟩, 1, 1⟩ ⟨rfl, rfl⟩
  exact ⟨h.1, h.2.1, h.2.2.1 rfl, h.2.2.2.2.2.2.1⟩

/-- C8 (amended): the destructor cancels the timer and releases the
schedule data and the alarm pool exactly as `stop_tone` does, but performs
no output write, so its effect equals `stop_tone`'s on all schedule and
resource state while the latched duty levels keep their prior values. -/
theorem c8_destructor_vs_stop (s : VolumeState) :
    destruct s = { stop_tone s with out := s.out } := by
  simp [destruct, stop_tone]

/-- C8 counterexample: in a state whose plus lead is latched at duty level
500, destruction leaves the plus lead at 500 while `stop_tone` drives it to
0, so the destructor's effect on outputs is not equal to `stop_tone`'s. -/
theorem c8_counterexample :
    (destruct ⟨500, false, none, 0, false, false, ⟨500, 0⟩, 0, 0⟩).out.plus
      = 500 ∧
    (stop_tone ⟨500, false, none, 0, false, false, ⟨500, 0⟩, 0, 0⟩).out.plus
      = 0 ∧
    destruct ⟨500, false, none, 0, false, false, ⟨500, 0⟩, 0, 0⟩ ≠
      stop_tone ⟨500, false, none, 0, false, false, ⟨500, 0⟩, 0, 0⟩ := by
  decide

/-- C9 (amended): a duration too short to produce any toggles is tolerated
as boundary behavior — for every positive half-period the toggle-count
computation succeeds, yielding zero toggles for sub-half-period durations —
but a rounded half-period of zero microseconds is not guarded: the
computation then divides by zero (C undefined behavior, `none` in the
model). -/
theorem c9_degenerate_timing (old d h : Nat) (hh : 0 < h) :
    (computeNumRepeats old d TIME_MS h).isSome = true ∧
    (computeNumRepeats old d TIME_US h).isSome = true ∧
    (d < h → computeNumRepeats old d TIME_US h = some 0) ∧
    computeNumRepeats old d TIME_MS 0 = none ∧
    computeNumRepeats old d TIME_US 0 = none := by
  have hne : h ≠ 0 := by omega
  refine ⟨?_, ?_, ?_, ?_, ?_⟩
  · simp [computeNumRepeats, TIME_MS, TIME_US, hne]
  · simp [computeNumRepeats, TIME_MS, TIME_US, hne]
  · intro hdh
    simp [computeNumRepeats, TIME_MS, TIME_US, hne, Nat.div_eq_of_lt hdh]
  · simp [computeNumRepeats, TIME_MS, TIME_US]
  · simp [computeNumRepeats, TIME_MS, TIME_US]

/-- C9 counterexample: at 2 MHz the rounded half-period is zero
microseconds, and `tone(2e6 Hz, 50, 1000, TIME_MS)` then divides its
duration by zero — undefined behavior in C, `none` in the model — so the
computation is not total and guarded there. -/
theorem c9_counterexample :
    freq_to_us 2000000 = some 0 ∧
    tone ⟨0, false, none, 0, false, false, ⟨0, 0⟩, 0, 0⟩ 2000000 50 1000
      TIME_MS = none := by
  refine ⟨freq_to_us_at_2000000, ?_⟩
  simp [tone, computeNumRepeats, TIME_US, TIME_MS, freq_to_us_at_2000000]

/-- Witness for C9 (amended) with half-period 1136 µs and duration 100 µs. -/
theorem c9_witness :
    (0 < 1136) ∧
    (computeNumRepeats 0 100 TIME_MS 1136).isSome = true ∧
    computeNumRepeats 0 100 TIME_US 1136 = some 0 ∧
    computeNumRepeats 0 100 TIME_MS 0 = none := by
  have h := c9_degenerate_timing 0 100 1136 (by decide)
  exact ⟨by decide, h.1, h.2.2.1 (by decide), h.2.2.2.1⟩

/-- C10: for any frequency whose half-period conversion is defined, when
the time-unit argument matches neither `TIME_MS` (0) nor `TIME_US` (1), the
`switch` recomputes nothing: the call still succeeds and installs a new
schedule whose repeat target is whatever value the instance's `_numRepeats`
field held before the call (indeterminate on the first call), neither
rejected nor defaulted. -/
theorem c10_unknown_timebase (s : VolumeState) (freq volume : ℚ)
    (duration time : Nat) (hfreq : (freq_to_us freq).isSome = true)
    (h0 : time ≠ TIME_MS) (h1 : time ≠ TIME_US) :
    (tone s freq volume duration time).isSome = true ∧
    ∀ s1, tone s freq volume duration time = some s1 →
      s1.numRepeats = s.numRepeats ∧
      ∀ td1, s1.timerData = some td1 → td1.numRepeats = s.numRepeats := by
  obtain ⟨u, hu⟩ : ∃ u, freq_to_us freq = some u :=
    Option.isSome_iff_exists.mp hfreq
  have hcn : computeNumRepeats s.numRepeats duration time u
      = some s.numRepeats := by
    simp [computeNumRepeats, h0, h1]
  have hs := (tone_some_iff s _ freq volume duration time).2
    ⟨u, s.numRepeats, hu, hcn, rfl⟩
  refine ⟨by rw [hs]; rfl, ?_⟩
  intro s1 hs1
  rw [hs] at hs1
  obtain rfl : _ = s1 := by simpa using hs1
  refine ⟨rfl, ?_⟩
  intro td1 htd
  obtain rfl : _ = td1 := by simpa using htd
  rfl

/-- Witness for C10 at the unknown timebase value 2: the stale repeat
target 5 is copied into the new schedule untouched. -/
theorem c10_witness :
    (tone ⟨0, false, none, 5, false, false, ⟨0, 0⟩, 0, 0⟩ 1000 0 7 2).isSome
      = true ∧
    (⟨0, false, some ⟨5, 0, false, false, 0⟩, 5, true, true, ⟨0, 0⟩, 1, 1⟩ :
      VolumeState).numRepeats = 5 ∧
    (⟨5, 0, false, false, 0⟩ : timer_data).numRepeats = 5 := by
  have h := c10_unknown_timebase
    ⟨0, false, none, 5, false, false, ⟨0, 0⟩, 0, 0⟩ 1000 0 7 2
    (by simp [freq_to_us_at_1000]) (by decide) (by decide)
  have hs : tone ⟨0, false, none, 5, false, false, ⟨0, 0⟩, 0, 0⟩ 1000 0 7 2
      = some ⟨0, false, some ⟨5, 0, false, false, 0⟩, 5, true, true,
        ⟨0, 0⟩, 1, 1⟩ := by
    simp [tone, computeNumRepeats, TIME_US, TIME_MS, resolvedLevel_zero,
      freq_to_us_at_1000]
  have h2 := h.2 _ hs
  exact ⟨h.1, h2.1, h2.2 _ rfl⟩
